import Mathlib

/-!
Shallow embedding of the NFC token issuance/validation/redemption protocol
of the contacts backend (module `app/api/nfc.py`).

The external store is modelled as three lists of records (`nfc_tokens`,
`profiles`, `connections`); the CRUD `read` with a match-query is `List.filter`,
`update("id", v, {"is_active": False})` is a map that deactivates every row
whose id equals `v`, and `create` appends a row.  Timestamps are integers,
`datetime.now()` is an explicit `now` parameter, and the secure random
generator is an explicit choice function `Nat → Nat`.  Each endpoint returns
the pair of its HTTP outcome (`Except`) and the store after the call, since
the expired-token path writes before raising.
-/

namespace Contacts

/-- A row of the `nfc_tokens` table. -/
structure Token where
  id : Nat
  user_id : Nat
  token : String
  profile_type : String
  is_active : Bool
  expires_at : Int
  deriving DecidableEq

/-- A row of the `profiles` table (only the fields the NFC module reads). -/
structure Profile where
  user_id : Nat
  type : String
  deriving DecidableEq

/-- A row of the `connections` table. -/
structure Connection where
  user_id : Nat
  connected_user_id : Nat
  connection_type : String
  deriving DecidableEq

/-- The external store: the three tables the NFC module touches. -/
structure DB where
  nfc_tokens : List Token
  profiles : List Profile
  connections : List Connection
  deriving DecidableEq

/-- The `error_code` values the NFC module can raise. -/
inductive NfcError where
  | INVALID_TOKEN
  | EXPIRED_TOKEN
  | PROFILE_NOT_FOUND
  | SELF_CONNECTION
  | CONNECTION_EXISTS
  deriving DecidableEq

/-- Response of `POST /nfc/generate`. -/
structure NFCTokenResponse where
  token : String
  profile_type : String
  expires_at : Int
  deriving DecidableEq

/-- Response of `GET /nfc/validate/{token}`. -/
structure ValidateResponse where
  profile : Profile
  user_id : Nat
  deriving DecidableEq

/-- Response of `POST /nfc/connect/{token}`. -/
structure ConnectResponse where
  connection : Connection
  profile : Option Profile
  deriving DecidableEq

/-- The match-query `{"user_id": uid, "type": pt}` on the `profiles` table. -/
def matchesProfile (uid : Nat) (pt : String) (p : Profile) : Bool :=
  p.user_id == uid && p.type == pt

/-- `nfc_crud.update("id", i, {"is_active": False})`: deactivate every token
row whose id is `i`. -/
def deactivateById (i : Nat) (ts : List Token) : List Token :=
  ts.map fun t => if t.id == i then { t with is_active := false } else t

/-- The supersession loop of `generate_nfc_token`: deactivate, one update per
row id, each of the listed ids in turn. -/
def deactivateIds (ids : List Nat) (ts : List Token) : List Token :=
  ids.foldl (fun acc i => deactivateById i acc) ts

/-- `string.ascii_letters + string.digits`, the token alphabet. -/
def alphabet : List Char :=
  "abcdefghijklmnopqrstuvwxyzABCDEFGHIJKLMNOPQRSTUVWXYZ0123456789".toList

/-- `generate_token`: draw `length` characters from `alphabet`; the call to
`secrets.choice` for position `i` is modelled by `choice i`, reduced modulo
the alphabet size so that every outcome of the generator is covered. -/
def generate_token (choice : Nat → Nat) (length : Nat) : String :=
  String.mk ((List.range length).map fun i =>
    alphabet.get ⟨choice i % alphabet.length, Nat.mod_lt _ (by decide)⟩)

/-- `POST /nfc/generate` (`generate_nfc_token`, the IssueToken operation).
`choice` stands for the random generator, `expires_at` for
`now() + NFC_TOKEN_EXPIRE_MINUTES`, and `new_id` for the row id the store
assigns to the inserted token. -/
def generate_nfc_token (user_id : Nat) (profile_type : String)
    (choice : Nat → Nat) (expires_at : Int) (new_id : Nat) (db : DB) :
    Except NfcError NFCTokenResponse × DB :=
  let profiles := db.profiles.filter (matchesProfile user_id profile_type)
  if profiles.isEmpty then
    (.error .PROFILE_NOT_FOUND, db)
  else
    let tok := generate_token choice 32
    let existing := db.nfc_tokens.filter fun t =>
      t.user_id == user_id && t.profile_type == profile_type && t.is_active
    let remaining := deactivateIds (existing.map Token.id) db.nfc_tokens
    let newTok : Token :=
      { id := new_id, user_id := user_id, token := tok,
        profile_type := profile_type, is_active := true,
        expires_at := expires_at }
    (.ok { token := tok, profile_type := profile_type, expires_at := expires_at },
      { db with nfc_tokens := remaining ++ [newTok] })

/-- `GET /nfc/validate/{token}` (`validate_nfc_token`, the ValidateToken
operation); `now` is `datetime.now(timezone.utc)`. -/
def validate_nfc_token (tok : String) (now : Int) (db : DB) :
    Except NfcError ValidateResponse × DB :=
  let tokens := db.nfc_tokens.filter fun t => t.token == tok && t.is_active
  match tokens with
  | [] => (.error .INVALID_TOKEN, db)
  | td :: _ =>
    if td.expires_at < now then
      (.error .EXPIRED_TOKEN,
        { db with nfc_tokens := deactivateById td.id db.nfc_tokens })
    else
      match db.profiles.filter (matchesProfile td.user_id td.profile_type) with
      | [] => (.error .PROFILE_NOT_FOUND, db)
      | p :: _ => (.ok { profile := p, user_id := td.user_id }, db)

/-- `POST /nfc/connect/{token}` (`connect_via_nfc`, the RedeemToken
operation); `user_id` is the authenticated redeemer. -/
def connect_via_nfc (user_id : Nat) (tok : String) (now : Int) (db : DB) :
    Except NfcError ConnectResponse × DB :=
  let tokens := db.nfc_tokens.filter fun t => t.token == tok && t.is_active
  match tokens with
  | [] => (.error .INVALID_TOKEN, db)
  | td :: _ =>
    let target_user_id := td.user_id
    if user_id == target_user_id then
      (.error .SELF_CONNECTION, db)
    else if td.expires_at < now then
      (.error .EXPIRED_TOKEN,
        { db with nfc_tokens := deactivateById td.id db.nfc_tokens })
    else
      let existing := db.connections.filter fun c =>
        c.user_id == user_id && c.connected_user_id == target_user_id
      if !existing.isEmpty then
        (.error .CONNECTION_EXISTS, db)
      else
        let conn : Connection :=
          { user_id := user_id, connected_user_id := target_user_id,
            connection_type := td.profile_type }
        let db2 : DB :=
          { db with connections := db.connections ++ [conn],
                    nfc_tokens := deactivateById td.id db.nfc_tokens }
        let profile := db2.profiles.filter (matchesProfile target_user_id td.profile_type)
        (.ok { connection := conn, profile := profile.head? }, db2)

/-- The active tokens of one `(owner, profile_type)` pair. -/
def activeFor (uid : Nat) (pt : String) (db : DB) : List Token :=
  db.nfc_tokens.filter fun t => t.user_id == uid && t.profile_type == pt && t.is_active

/-- One IssueToken call's per-request inputs: random generator, computed
expiry, store-assigned row id. -/
structure IssueInput where
  choice : Nat → Nat
  expires_at : Int
  new_id : Nat

/-- Run a sequence of IssueToken calls for one `(owner, profile_type)` pair,
threading the store. -/
def runIssues (uid : Nat) (pt : String) (inputs : List IssueInput) (db : DB) : DB :=
  inputs.foldl (fun d inp => (generate_nfc_token uid pt inp.choice inp.expires_at inp.new_id d).2) db

/-- The supersession step of `generate_nfc_token`: read the active tokens of
the pair, deactivate each by id. -/
def supersede (uid : Nat) (pt : String) (ts : List Token) : List Token :=
  deactivateIds ((ts.filter fun t =>
    t.user_id == uid && t.profile_type == pt && t.is_active).map Token.id) ts

/-! ### Concrete fixtures for counterexamples and witnesses -/

/-- An active token, owned by user 10, for the family profile, expiring at
time 100. -/
def tokA : Token :=
  { id := 1, user_id := 10, token := "TOK", profile_type := "family",
    is_active := true, expires_at := 100 }

/-- User 10's family profile. -/
def profA : Profile :=
  { user_id := 10, type := "family" }

/-- A store holding `tokA` and `profA` and no connections. -/
def dbA : DB :=
  { nfc_tokens := [tokA], profiles := [profA], connections := [] }

/-- A deactivated token, owned by user 10, for the family profile. -/
def tokInact : Token :=
  { id := 2, user_id := 10, token := "TOKI", profile_type := "family",
    is_active := false, expires_at := 100 }

/-- A store holding only the deactivated token `tokInact` (and `profA`). -/
def dbInact : DB :=
  { nfc_tokens := [tokInact], profiles := [profA], connections := [] }

/-- A store holding both the active token `tokA` (value `TOK`) and the
deactivated token `tokInact` (value `TOKI`), both owned by user 10. -/
def dbBoth : DB :=
  { nfc_tokens := [tokA, tokInact], profiles := [profA], connections := [] }

/-- A connection from user 20 to user 10 of type `work` — a different type
than `tokA`'s `family`. -/
def connAB : Connection :=
  { user_id := 20, connected_user_id := 10, connection_type := "work" }

/-- A store holding `tokA`, `profA` and the prior connection `connAB`. -/
def dbConn : DB :=
  { nfc_tokens := [tokA], profiles := [profA], connections := [connAB] }

/-- A store holding the active token `tokA` but no profile rows. -/
def dbNoProf : DB :=
  { nfc_tokens := [tokA], profiles := [], connections := [] }

theorem alphabet_length_pos : 0 < alphabet.length := by decide

/-! ### Helper lemmas -/

theorem deactivateIds_cons (i : Nat) (rest : List Nat) (ts : List Token) :
    deactivateIds (i :: rest) ts = deactivateIds rest (deactivateById i ts) := rfl

theorem mem_deactivateById (u : Token) (i : Nat) (ts : List Token)
    (hu : u ∈ deactivateById i ts) (ha : u.is_active = true) :
    u ∈ ts ∧ u.id ≠ i := by
  rcases List.mem_map.1 hu with ⟨u0, hu0, heq⟩
  by_cases h : u0.id = i
  · exfalso
    rw [← heq] at ha
    simp [h] at ha
  · rw [← heq]
    simpa [h] using hu0

theorem mem_deactivateIds (u : Token) (ids : List Nat) (ts : List Token)
    (hu : u ∈ deactivateIds ids ts) (ha : u.is_active = true) :
    u ∈ ts ∧ ∀ i ∈ ids, u.id ≠ i := by
  induction ids generalizing ts with
  | nil => exact ⟨hu, by simp⟩
  | cons i rest ih =>
    rw [deactivateIds_cons] at hu
    obtain ⟨h1, h2⟩ := ih (deactivateById i ts) hu
    obtain ⟨h3, h4⟩ := mem_deactivateById u i ts h1 ha
    refine ⟨h3, ?_⟩
    intro j hj
    rcases List.mem_cons.1 hj with rfl | hj
    · exact h4
    · exact h2 j hj

/-! ### Evaluation lemmas for the validation and redemption paths -/

theorem validate_expired_eval (db : DB) (t : Token) (tok : String) (now : Int)
    (hfind : db.nfc_tokens.filter (fun u => u.token == tok && u.is_active) = [t])
    (hexp : t.expires_at < now) :
    validate_nfc_token tok now db =
      (.error .EXPIRED_TOKEN,
        { db with nfc_tokens := deactivateById t.id db.nfc_tokens }) := by
  simp [validate_nfc_token, hfind, hexp]

theorem validate_ok_eval (db : DB) (t : Token) (tok : String) (now : Int)
    (p : Profile) (ps : List Profile)
    (hfind : db.nfc_tokens.filter (fun u => u.token == tok && u.is_active) = [t])
    (hexp : ¬ t.expires_at < now)
    (hprof : db.profiles.filter (matchesProfile t.user_id t.profile_type) = p :: ps) :
    validate_nfc_token tok now db =
      (.ok { profile := p, user_id := t.user_id }, db) := by
  simp [validate_nfc_token, hfind, hexp, hprof]

theorem validate_no_profile_eval (db : DB) (t : Token) (tok : String) (now : Int)
    (hfind : db.nfc_tokens.filter (fun u => u.token == tok && u.is_active) = [t])
    (hexp : ¬ t.expires_at < now)
    (hprof : db.profiles.filter (matchesProfile t.user_id t.profile_type) = []) :
    validate_nfc_token tok now db = (.error .PROFILE_NOT_FOUND, db) := by
  simp [validate_nfc_token, hfind, hexp, hprof]

theorem connect_self_eval (db : DB) (t : Token) (tok : String) (now : Int)
    (hfind : db.nfc_tokens.filter (fun u => u.token == tok && u.is_active) = [t]) :
    connect_via_nfc t.user_id tok now db = (.error .SELF_CONNECTION, db) := by
  simp [connect_via_nfc, hfind]

theorem connect_expired_eval (db : DB) (t : Token) (tok : String) (now : Int) (uid : Nat)
    (hfind : db.nfc_tokens.filter (fun u => u.token == tok && u.is_active) = [t])
    (hown : uid ≠ t.user_id)
    (hexp : t.expires_at < now) :
    connect_via_nfc uid tok now db =
      (.error .EXPIRED_TOKEN,
        { db with nfc_tokens := deactivateById t.id db.nfc_tokens }) := by
  simp [connect_via_nfc, hfind, hown, hexp]

theorem connect_invalid_eval (db : DB) (tok : String) (now : Int) (uid : Nat)
    (hall : ∀ u ∈ db.nfc_tokens, u.token = tok → u.is_active = false) :
    connect_via_nfc uid tok now db = (.error .INVALID_TOKEN, db) := by
  have hfil : db.nfc_tokens.filter (fun u => u.token == tok && u.is_active) = [] := by
    rw [List.filter_eq_nil_iff]
    intro u hu
    simp only [Bool.and_eq_true, beq_iff_eq, not_and]
    intro htok
    simp [hall u hu htok]
  simp [connect_via_nfc, hfil]

theorem connect_exists_eval (db : DB) (t : Token) (tok : String) (now : Int) (uid : Nat)
    (hfind : db.nfc_tokens.filter (fun u => u.token == tok && u.is_active) = [t])
    (hown : uid ≠ t.user_id)
    (hexp : ¬ t.expires_at < now)
    (hconn : db.connections.filter
      (fun c => c.user_id == uid && c.connected_user_id == t.user_id) ≠ []) :
    connect_via_nfc uid tok now db = (.error .CONNECTION_EXISTS, db) := by
  simp [connect_via_nfc, hfind, hown, hexp, hconn, List.isEmpty_iff]

theorem connect_success_eval (db : DB) (t : Token) (tok : String) (now : Int) (uid : Nat)
    (hfind : db.nfc_tokens.filter (fun u => u.token == tok && u.is_active) = [t])
    (hown : uid ≠ t.user_id)
    (hexp : ¬ t.expires_at < now)
    (hconn : db.connections.filter
      (fun c => c.user_id == uid && c.connected_user_id == t.user_id) = []) :
    connect_via_nfc uid tok now db =
      (.ok (ConnectResponse.mk (Connection.mk uid t.user_id t.profile_type)
         (db.profiles.filter (matchesProfile t.user_id t.profile_type)).head?),
       { db with
         connections := db.connections ++ [Connection.mk uid t.user_id t.profile_type],
         nfc_tokens := deactivateById t.id db.nfc_tokens }) := by
  simp [connect_via_nfc, hfind, hown, hexp, hconn]

theorem deactivateById_inactive (i : Nat) (ts : List Token) :
    ∀ u ∈ deactivateById i ts, u.id = i → u.is_active = false := by
  intro u hu hid
  rcases List.mem_map.1 hu with ⟨u0, _, heq⟩
  subst heq
  by_cases h : u0.id = i
  · simp [h]
  · simp [h] at hid

theorem token_inactive_after_deactivate (db : DB) (t : Token) (tok : String)
    (hfind : db.nfc_tokens.filter (fun u => u.token == tok && u.is_active) = [t]) :
    ∀ u ∈ deactivateById t.id db.nfc_tokens, u.token = tok → u.is_active = false := by
  intro u hu htok
  rcases List.mem_map.1 hu with ⟨u0, hu0, heq⟩
  subst heq
  by_cases h : u0.id = t.id
  · simp [h]
  · simp [h] at htok ⊢
    by_cases ha : u0.is_active = true
    · exfalso
      have hmem : u0 ∈ db.nfc_tokens.filter (fun u => u.token == tok && u.is_active) :=
        List.mem_filter.2 ⟨hu0, by simp [htok, ha]⟩
      rw [hfind, List.mem_singleton] at hmem
      exact h (by rw [hmem])
    · simpa using ha

/-- C3 counterexample: `tokA` is active with `expires_at = 100`, and
validating it at `now = 100` — exactly `expires_at`, where the claim says the
call must fail `EXPIRED_TOKEN` — instead succeeds, because the code tests the
strict comparison `expires_at < now`. -/
theorem validate_at_exact_expiry_succeeds :
    tokA.is_active = true ∧ tokA.expires_at = 100 ∧
    validate_nfc_token "TOK" 100 dbA =
      (.ok { profile := profA, user_id := 10 }, dbA) :=
  ⟨rfl, rfl, rfl⟩

/-- C4 counterexample: user 10 redeems their own already-deactivated token
`tokInact`; the claim says this must fail `SELF_CONNECTION`, but the lookup
filters on `is_active = true`, finds nothing, and fails `INVALID_TOKEN`. -/
theorem self_redeem_inactive_invalid :
    tokInact.user_id = 10 ∧ tokInact.is_active = false ∧
    connect_via_nfc 10 "TOKI" 50 dbInact =
      (.error .INVALID_TOKEN, dbInact) :=
  ⟨rfl, rfl, rfl⟩

/-- C5 counterexample: user 10 redeems their own still-active token `tokA`
at `now = 200`, past its expiry 100; the claim says expiry is checked first,
so this must fail `EXPIRED_TOKEN` and deactivate the token, but the code
checks self-connection first: it fails `SELF_CONNECTION` and leaves the
store unchanged. -/
theorem owner_expired_self_connection :
    tokA.is_active = true ∧ tokA.expires_at < 200 ∧
    connect_via_nfc 10 "TOK" 200 dbA =
      (.error .SELF_CONNECTION, dbA) :=
  ⟨rfl, by decide, rfl⟩

/-! ### Claim theorems -/

/-- C3 (amended): the expiry boundary of ValidateToken is strict.  For every
active token found under its value, validating at a time `now > expires_at`
fails `EXPIRED_TOKEN` and deactivates the token as a side effect, while
validating at `now ≤ expires_at` — including exactly at `expires_at` —
succeeds when the owner's profile exists. -/
theorem validate_expiry_boundary (db : DB) (t : Token) (tok : String) (now : Int)
    (hfind : db.nfc_tokens.filter (fun u => u.token == tok && u.is_active) = [t]) :
    (t.expires_at < now →
       validate_nfc_token tok now db =
         (.error .EXPIRED_TOKEN,
           { db with nfc_tokens := deactivateById t.id db.nfc_tokens })
       ∧ ∀ u ∈ deactivateById t.id db.nfc_tokens, u.id = t.id → u.is_active = false)
    ∧ (now ≤ t.expires_at →
       ∀ p ps, db.profiles.filter (matchesProfile t.user_id t.profile_type) = p :: ps →
         validate_nfc_token tok now db =
           (.ok { profile := p, user_id := t.user_id }, db)) := by
  constructor
  · intro hexp
    exact ⟨validate_expired_eval db t tok now hfind hexp,
           deactivateById_inactive t.id db.nfc_tokens⟩
  · intro hle p ps hprof
    exact validate_ok_eval db t tok now p ps hfind (not_lt.2 hle) hprof

theorem validate_expiry_boundary_witness :
    (tokA.expires_at < 50 →
       validate_nfc_token "TOK" 50 dbA =
         (.error .EXPIRED_TOKEN,
           { dbA with nfc_tokens := deactivateById tokA.id dbA.nfc_tokens })
       ∧ ∀ u ∈ deactivateById tokA.id dbA.nfc_tokens, u.id = tokA.id → u.is_active = false)
    ∧ (50 ≤ tokA.expires_at →
       ∀ p ps, dbA.profiles.filter (matchesProfile tokA.user_id tokA.profile_type) = p :: ps →
         validate_nfc_token "TOK" 50 dbA =
           (.ok { profile := p, user_id := tokA.user_id }, dbA)) :=
  validate_expiry_boundary dbA tokA "TOK" 50 (by decide)

/-- C4 (amended): RedeemToken by the token's owner fails `SELF_CONNECTION`
whenever the token is still active — whether unexpired or past `expires_at`
(`now1` is arbitrary) — but when the token has already been deactivated the
lookup no longer finds it, so the owner's call fails `INVALID_TOKEN` instead
of `SELF_CONNECTION`; in both cases the store is unchanged. -/
theorem self_connection_rejected (db : DB) (t : Token) (s1 s2 : String) (now1 now2 : Int)
    (hfind : db.nfc_tokens.filter (fun u => u.token == s1 && u.is_active) = [t])
    (hinact : ∀ u ∈ db.nfc_tokens, u.token = s2 → u.is_active = false) :
    connect_via_nfc t.user_id s1 now1 db = (.error .SELF_CONNECTION, db)
    ∧ ∀ uid, connect_via_nfc uid s2 now2 db = (.error .INVALID_TOKEN, db) := by
  exact ⟨connect_self_eval db t s1 now1 hfind,
         fun uid => connect_invalid_eval db s2 now2 uid hinact⟩

theorem self_connection_rejected_witness :
    connect_via_nfc tokA.user_id "TOK" 200 dbBoth = (.error .SELF_CONNECTION, dbBoth)
    ∧ ∀ uid, connect_via_nfc uid "TOKI" 50 dbBoth = (.error .INVALID_TOKEN, dbBoth) :=
  self_connection_rejected dbBoth tokA "TOK" "TOKI" 200 50 (by decide) (by decide)

/-- C5 (amended): RedeemToken checks self-connection before expiry, so only a
redeemer distinct from the owner reaches the expiry check; for such a
redeemer and an active token with `expires_at < now`, RedeemToken fails
`EXPIRED_TOKEN` and deactivates the token, exactly as ValidateToken does at
the same state. -/
theorem expiry_checked_after_self (db : DB) (t : Token) (tok : String) (now : Int) (uid : Nat)
    (hfind : db.nfc_tokens.filter (fun u => u.token == tok && u.is_active) = [t])
    (hown : uid ≠ t.user_id)
    (hexp : t.expires_at < now) :
    connect_via_nfc uid tok now db =
      (.error .EXPIRED_TOKEN,
        { db with nfc_tokens := deactivateById t.id db.nfc_tokens })
    ∧ validate_nfc_token tok now db =
      (.error .EXPIRED_TOKEN,
        { db with nfc_tokens := deactivateById t.id db.nfc_tokens })
    ∧ ∀ u ∈ deactivateById t.id db.nfc_tokens, u.id = t.id → u.is_active = false := by
  exact ⟨connect_expired_eval db t tok now uid hfind hown hexp,
         validate_expired_eval db t tok now hfind hexp,
         deactivateById_inactive t.id db.nfc_tokens⟩

theorem expiry_checked_after_self_witness :
    connect_via_nfc 20 "TOK" 200 dbA =
      (.error .EXPIRED_TOKEN,
        { dbA with nfc_tokens := deactivateById tokA.id dbA.nfc_tokens })
    ∧ validate_nfc_token "TOK" 200 dbA =
      (.error .EXPIRED_TOKEN,
        { dbA with nfc_tokens := deactivateById tokA.id dbA.nfc_tokens })
    ∧ ∀ u ∈ deactivateById tokA.id dbA.nfc_tokens, u.id = tokA.id → u.is_active = false :=
  expiry_checked_after_self dbA tokA "TOK" 200 20 (by decide) (by decide) (by decide)

/-- C10: a RedeemToken call that fails `SELF_CONNECTION` or
`CONNECTION_EXISTS` leaves the store exactly as it was — the token stays
active and no Connection row is created — so the token remains redeemable;
only the expiry path and the success path write to the store. -/
theorem nonexpiry_failures_leave_state (uid : Nat) (tok : String) (now : Int) (db : DB)
    (h : (connect_via_nfc uid tok now db).1 = .error .SELF_CONNECTION
       ∨ (connect_via_nfc uid tok now db).1 = .error .CONNECTION_EXISTS) :
    (connect_via_nfc uid tok now db).2 = db := by
  rcases hfil : db.nfc_tokens.filter (fun u => u.token == tok && u.is_active) with _ | ⟨td, rest⟩
  · simp [connect_via_nfc, hfil] at h
  · by_cases hself : uid = td.user_id
    · simp [connect_via_nfc, hfil, hself]
    · by_cases hexp : td.expires_at < now
      · simp [connect_via_nfc, hfil, hself, hexp] at h
      · by_cases hex : db.connections.filter
            (fun c => c.user_id == uid && c.connected_user_id == td.user_id) = []
        · simp [connect_via_nfc, hfil, hself, hexp, hex] at h
        · simp [connect_via_nfc, hfil, hself, hexp, hex, List.isEmpty_iff]

theorem nonexpiry_failures_leave_state_witness :
    (connect_via_nfc 10 "TOK" 50 dbA).2 = dbA :=
  nonexpiry_failures_leave_state 10 "TOK" 50 dbA (Or.inl rfl)

/-- C1: RedeemToken is single-use.  A first call by a non-owner, unconnected
redeemer before expiry succeeds, appends exactly one Connection, and leaves
every row holding the presented token value inactive; a second call with the
same value, by any redeemer at any time, fails `INVALID_TOKEN` and changes
nothing. -/
theorem redeem_single_use (db : DB) (t : Token) (tok : String)
    (uid uid2 : Nat) (now now2 : Int)
    (hfind : db.nfc_tokens.filter (fun u => u.token == tok && u.is_active) = [t])
    (hown : uid ≠ t.user_id)
    (hexp : now < t.expires_at)
    (hconn : db.connections.filter
      (fun c => c.user_id == uid && c.connected_user_id == t.user_id) = []) :
    connect_via_nfc uid tok now db =
      (.ok (ConnectResponse.mk (Connection.mk uid t.user_id t.profile_type)
         (db.profiles.filter (matchesProfile t.user_id t.profile_type)).head?),
       { db with
         connections := db.connections ++ [Connection.mk uid t.user_id t.profile_type],
         nfc_tokens := deactivateById t.id db.nfc_tokens })
    ∧ (∀ u ∈ (connect_via_nfc uid tok now db).2.nfc_tokens,
         u.token = tok → u.is_active = false)
    ∧ connect_via_nfc uid2 tok now2 (connect_via_nfc uid tok now db).2 =
        (.error .INVALID_TOKEN, (connect_via_nfc uid tok now db).2) := by
  have hne : ¬ t.expires_at < now := not_lt.2 (le_of_lt hexp)
  have h1 := connect_success_eval db t tok now uid hfind hown hne hconn
  have hkill := token_inactive_after_deactivate db t tok hfind
  refine ⟨h1, ?_, ?_⟩
  · simp only [h1]
    exact hkill
  · simp only [h1]
    exact connect_invalid_eval _ tok now2 uid2 hkill

theorem redeem_single_use_witness :
    connect_via_nfc 20 "TOK" 50 dbA =
      (.ok (ConnectResponse.mk (Connection.mk 20 tokA.user_id tokA.profile_type)
         (dbA.profiles.filter (matchesProfile tokA.user_id tokA.profile_type)).head?),
       { dbA with
         connections := dbA.connections ++ [Connection.mk 20 tokA.user_id tokA.profile_type],
         nfc_tokens := deactivateById tokA.id dbA.nfc_tokens })
    ∧ (∀ u ∈ (connect_via_nfc 20 "TOK" 50 dbA).2.nfc_tokens,
         u.token = "TOK" → u.is_active = false)
    ∧ connect_via_nfc 30 "TOK" 60 (connect_via_nfc 20 "TOK" 50 dbA).2 =
        (.error .INVALID_TOKEN, (connect_via_nfc 20 "TOK" 50 dbA).2) :=
  redeem_single_use dbA tokA "TOK" 20 30 50 60 (by decide) (by decide) (by decide) (by decide)

/-- C6: the duplicate-connection guard ignores the profile type.  If any
Connection row from A to the token's owner exists — of any
`connection_type` — then RedeemToken by A against an active, unexpired token
of that owner fails `CONNECTION_EXISTS` and leaves the store unchanged, even
when the token's `profile_type` differs from the existing connection's
type. -/
theorem connection_guard_ignores_type (db : DB) (t : Token) (tok : String) (now : Int)
    (A : Nat) (c : Connection)
    (hfind : db.nfc_tokens.filter (fun u => u.token == tok && u.is_active) = [t])
    (hA : A ≠ t.user_id)
    (hexp : ¬ t.expires_at < now)
    (hc : c ∈ db.connections)
    (hcu : c.user_id = A)
    (hcc : c.connected_user_id = t.user_id) :
    connect_via_nfc A tok now db = (.error .CONNECTION_EXISTS, db) := by
  apply connect_exists_eval db t tok now A hfind hA hexp
  intro hnil
  have hmem : c ∈ db.connections.filter
      (fun c => c.user_id == A && c.connected_user_id == t.user_id) :=
    List.mem_filter.2 ⟨hc, by simp [hcu, hcc]⟩
  rw [hnil] at hmem
  simp at hmem

theorem connection_guard_ignores_type_witness :
    connAB.connection_type = "work" ∧ tokA.profile_type = "family" ∧
    connect_via_nfc 20 "TOK" 50 dbConn = (.error .CONNECTION_EXISTS, dbConn) :=
  ⟨rfl, rfl, connection_guard_ignores_type dbConn tokA "TOK" 50 20 connAB
    (by decide) (by decide) (by decide) (by decide) (by decide) (by decide)⟩

/-- C7: RedeemToken tolerates a missing owner profile.  For an active,
unexpired token whose owner has no `(owner_id, profile_type)` Profile row, a
distinct unconnected redeemer still succeeds: the Connection is appended,
the token is deactivated, and the response carries a `none` profile — while
ValidateToken at the same state fails `PROFILE_NOT_FOUND`. -/
theorem redeem_tolerates_missing_profile (db : DB) (t : Token) (tok : String)
    (now : Int) (uid : Nat)
    (hfind : db.nfc_tokens.filter (fun u => u.token == tok && u.is_active) = [t])
    (hown : uid ≠ t.user_id)
    (hexp : ¬ t.expires_at < now)
    (hconn : db.connections.filter
      (fun c => c.user_id == uid && c.connected_user_id == t.user_id) = [])
    (hprof : db.profiles.filter (matchesProfile t.user_id t.profile_type) = []) :
    connect_via_nfc uid tok now db =
      (.ok (ConnectResponse.mk (Connection.mk uid t.user_id t.profile_type) none),
       { db with
         connections := db.connections ++ [Connection.mk uid t.user_id t.profile_type],
         nfc_tokens := deactivateById t.id db.nfc_tokens })
    ∧ (∀ u ∈ deactivateById t.id db.nfc_tokens, u.token = tok → u.is_active = false)
    ∧ validate_nfc_token tok now db = (.error .PROFILE_NOT_FOUND, db) := by
  refine ⟨?_, token_inactive_after_deactivate db t tok hfind,
          validate_no_profile_eval db t tok now hfind hexp hprof⟩
  have h := connect_success_eval db t tok now uid hfind hown hexp hconn
  rw [hprof] at h
  simpa using h

theorem redeem_tolerates_missing_profile_witness :
    connect_via_nfc 20 "TOK" 50 dbNoProf =
      (.ok (ConnectResponse.mk (Connection.mk 20 tokA.user_id tokA.profile_type) none),
       { dbNoProf with
         connections := dbNoProf.connections ++
           [Connection.mk 20 tokA.user_id tokA.profile_type],
         nfc_tokens := deactivateById tokA.id dbNoProf.nfc_tokens })
    ∧ (∀ u ∈ deactivateById tokA.id dbNoProf.nfc_tokens,
         u.token = "TOK" → u.is_active = false)
    ∧ validate_nfc_token "TOK" 50 dbNoProf = (.error .PROFILE_NOT_FOUND, dbNoProf) :=
  redeem_tolerates_missing_profile dbNoProf tokA "TOK" 50 20
    (by decide) (by decide) (by decide) (by decide) (by decide)

theorem generate_fail_eval (uid : Nat) (pt : String) (choice : Nat → Nat)
    (exp : Int) (nid : Nat) (db : DB)
    (hprof : db.profiles.filter (matchesProfile uid pt) = []) :
    generate_nfc_token uid pt choice exp nid db = (.error .PROFILE_NOT_FOUND, db) := by
  simp [generate_nfc_token, hprof]

theorem generate_preserves_profiles (uid : Nat) (pt : String) (choice : Nat → Nat)
    (exp : Int) (nid : Nat) (db : DB) :
    (generate_nfc_token uid pt choice exp nid db).2.profiles = db.profiles := by
  by_cases hp : (db.profiles.filter (matchesProfile uid pt)).isEmpty <;>
    simp [generate_nfc_token, hp]

theorem generate_preserves_connections (uid : Nat) (pt : String) (choice : Nat → Nat)
    (exp : Int) (nid : Nat) (db : DB) :
    (generate_nfc_token uid pt choice exp nid db).2.connections = db.connections := by
  by_cases hp : (db.profiles.filter (matchesProfile uid pt)).isEmpty <;>
    simp [generate_nfc_token, hp]

/-- C8: IssueToken fails atomically on a missing profile — the call returns
`PROFILE_NOT_FOUND` with the store exactly as it was — and no IssueToken run
whatsoever mutates the `connections` or `profiles` tables. -/
theorem issue_fails_atomically (uid : Nat) (pt : String) (choice : Nat → Nat)
    (exp : Int) (nid : Nat) (db : DB)
    (hprof : db.profiles.filter (matchesProfile uid pt) = []) :
    generate_nfc_token uid pt choice exp nid db = (.error .PROFILE_NOT_FOUND, db)
    ∧ ∀ (uid2 : Nat) (pt2 : String) (choice2 : Nat → Nat) (exp2 : Int)
        (nid2 : Nat) (db2 : DB),
        (generate_nfc_token uid2 pt2 choice2 exp2 nid2 db2).2.connections = db2.connections
        ∧ (generate_nfc_token uid2 pt2 choice2 exp2 nid2 db2).2.profiles = db2.profiles := by
  exact ⟨generate_fail_eval uid pt choice exp nid db hprof,
         fun uid2 pt2 choice2 exp2 nid2 db2 =>
           ⟨generate_preserves_connections uid2 pt2 choice2 exp2 nid2 db2,
            generate_preserves_profiles uid2 pt2 choice2 exp2 nid2 db2⟩⟩

theorem issue_fails_atomically_witness :
    generate_nfc_token 99 "family" (fun _ => 0) 100 5 dbA = (.error .PROFILE_NOT_FOUND, dbA)
    ∧ ∀ (uid2 : Nat) (pt2 : String) (choice2 : Nat → Nat) (exp2 : Int)
        (nid2 : Nat) (db2 : DB),
        (generate_nfc_token uid2 pt2 choice2 exp2 nid2 db2).2.connections = db2.connections
        ∧ (generate_nfc_token uid2 pt2 choice2 exp2 nid2 db2).2.profiles = db2.profiles :=
  issue_fails_atomically 99 "family" (fun _ => 0) 100 5 dbA (by decide)

theorem generate_token_length (choice : Nat → Nat) (n : Nat) :
    (generate_token choice n).length = n := by
  simp [generate_token, String.length]

theorem generate_token_mem (choice : Nat → Nat) (n : Nat) :
    ∀ c ∈ (generate_token choice n).toList, c ∈ alphabet := by
  intro c hc
  simp only [generate_token, String.toList] at hc
  rw [List.mem_map] at hc
  obtain ⟨i, _, rfl⟩ := hc
  exact List.get_mem _ _ _

/-- C9: every token value returned by a successful IssueToken call is exactly
32 characters long, every character is drawn from the 62-character
letters-plus-digits alphabet, and every character of that alphabet is an
ASCII letter or digit — for every possible outcome `choice` of the random
generator. -/
theorem issue_token_format (uid : Nat) (pt : String) (choice : Nat → Nat)
    (exp : Int) (nid : Nat) (db : DB) (r : NFCTokenResponse) (db2 : DB)
    (h : generate_nfc_token uid pt choice exp nid db = (.ok r, db2)) :
    r.token.length = 32
    ∧ (∀ c ∈ r.token.toList, c ∈ alphabet)
    ∧ alphabet.length = 62
    ∧ (∀ c ∈ alphabet, (c.isAlpha || c.isDigit) = true) := by
  have hr : r.token = generate_token choice 32 := by
    by_cases hp : (db.profiles.filter (matchesProfile uid pt)).isEmpty
    · simp [generate_nfc_token, hp] at h
    · simp [generate_nfc_token, hp] at h
      rw [← h.1]
  rw [hr]
  exact ⟨generate_token_length choice 32, generate_token_mem choice 32,
         by decide, by decide⟩

theorem issue_token_format_witness :
    (generate_token (fun _ => 0) 32).length = 32
    ∧ (∀ c ∈ (generate_token (fun _ => 0) 32).toList, c ∈ alphabet)
    ∧ alphabet.length = 62
    ∧ (∀ c ∈ alphabet, (c.isAlpha || c.isDigit) = true) :=
  issue_token_format 10 "family" (fun _ => 0) 100 5 dbA
    (NFCTokenResponse.mk (generate_token (fun _ => 0) 32) "family" 100) _ rfl

theorem filter_supersede_nil (uid : Nat) (pt : String) (ts : List Token) :
    (supersede uid pt ts).filter
      (fun t => t.user_id == uid && t.profile_type == pt && t.is_active) = [] := by
  rw [List.filter_eq_nil_iff]
  intro u hu hpred
  have hact : u.is_active = true := by
    simp only [Bool.and_eq_true] at hpred
    exact hpred.2
  obtain ⟨hmem, hids⟩ := mem_deactivateIds u _ ts hu hact
  have hfilt : u ∈ ts.filter
      (fun t => t.user_id == uid && t.profile_type == pt && t.is_active) :=
    List.mem_filter.2 ⟨hmem, hpred⟩
  have hid : u.id ∈ (ts.filter fun t =>
      t.user_id == uid && t.profile_type == pt && t.is_active).map Token.id :=
    List.mem_map.2 ⟨u, hfilt, rfl⟩
  exact hids u.id hid rfl

theorem activeFor_after_generate (uid : Nat) (pt : String) (choice : Nat → Nat)
    (exp : Int) (nid : Nat) (db : DB)
    (hprof : (db.profiles.filter (matchesProfile uid pt)).isEmpty = false) :
    activeFor uid pt (generate_nfc_token uid pt choice exp nid db).2 =
      [Token.mk nid uid (generate_token choice 32) pt true exp] := by
  have h2 : (generate_nfc_token uid pt choice exp nid db).2 =
      { db with nfc_tokens := supersede uid pt db.nfc_tokens ++ [Token.mk nid uid (generate_token choice 32) pt true exp] } := by
    simp [generate_nfc_token, supersede, deactivateIds, hprof]
  rw [h2]
  unfold activeFor
  rw [List.filter_append, filter_supersede_nil]
  simp

theorem runIssues_cons (uid : Nat) (pt : String) (inp : IssueInput)
    (rest : List IssueInput) (db : DB) :
    runIssues uid pt (inp :: rest) db =
      runIssues uid pt rest
        (generate_nfc_token uid pt inp.choice inp.expires_at inp.new_id db).2 := rfl

theorem runIssues_active_one (uid : Nat) (pt : String) :
    ∀ (inputs : List IssueInput) (db : DB),
      (db.profiles.filter (matchesProfile uid pt)).isEmpty = false →
      inputs ≠ [] →
      (activeFor uid pt (runIssues uid pt inputs db)).length = 1 := by
  intro inputs
  induction inputs with
  | nil => exact fun db _ hne => absurd rfl hne
  | cons inp rest ih =>
    intro db hprof _
    rw [runIssues_cons]
    rcases hrest : rest with _ | ⟨inp2, rest2⟩
    · show (activeFor uid pt
        (generate_nfc_token uid pt inp.choice inp.expires_at inp.new_id db).2).length = 1
      rw [activeFor_after_generate uid pt inp.choice inp.expires_at inp.new_id db hprof]
      rfl
    · rw [← hrest]
      refine ih _ ?_ (by rw [hrest]; simp)
      rw [generate_preserves_profiles]
      exact hprof

/-- C2: the at-most-one-active invariant of IssueToken.  For a pair
`(owner_id, profile_type)` whose profile exists and which starts with at most
one active token, any sequence of sequential IssueToken calls leaves at most
one active token for the pair, and any sequence of N ≥ 1 calls leaves
exactly one (each call deactivates every previously active token of the pair
before inserting the new one). -/
theorem issue_unique_active (uid : Nat) (pt : String) (db : DB)
    (hprof : (db.profiles.filter (matchesProfile uid pt)).isEmpty = false)
    (hinit : (activeFor uid pt db).length ≤ 1) :
    (∀ inputs, (activeFor uid pt (runIssues uid pt inputs db)).length ≤ 1)
    ∧ ∀ inputs, inputs ≠ [] →
        (activeFor uid pt (runIssues uid pt inputs db)).length = 1 := by
  constructor
  · intro inputs
    rcases inputs with _ | ⟨inp, rest⟩
    · exact hinit
    · have h := runIssues_active_one uid pt (inp :: rest) db hprof (by simp)
      rw [h]
  · exact fun inputs hne => runIssues_active_one uid pt inputs db hprof hne

theorem issue_unique_active_witness :
    (∀ inputs, (activeFor 10 "family" (runIssues 10 "family" inputs dbA)).length ≤ 1)
    ∧ ∀ inputs, inputs ≠ [] →
        (activeFor 10 "family" (runIssues 10 "family" inputs dbA)).length = 1 :=
  issue_unique_active 10 "family" dbA (by decide) (by decide)

end Contacts
